import Mathlib

/-!
Shallow embedding of the quiz-management application (`src/app.py`) and
verification of its specified properties.

Conventions of the embedding:
* Python `None` becomes `Option.none`; an answer / correct-answer index is
  `Option Nat`.
* The quiz store (a Python dict iterated in insertion order) is an
  association list `List (String × Quiz)`.
* Wall-clock instants and durations (Python floats from `time.time()`) are
  modelled as exact rationals.
* The Streamlit globals mutated by a script pass become explicit state
  passing: `submit_student_quiz` returns the new record list, and the
  timer/auto-submit logic of a script rerun is the function `tick`.
-/

namespace QuizApp

/-- A question object, as stored in `quizzes.json`:
`{question_text, options[4], correct_answer|null, auto_generated}`. -/
structure Question where
  question_text : String
  options : List String
  correct_answer : Option Nat
  auto_generated : Bool
deriving DecidableEq

/-- A quiz object, as stored in `quizzes.json`:
`{title, questions[], filename, enabled, auto_generated, duration_minutes}`. -/
structure Quiz where
  title : String
  questions : List Question
  filename : String
  enabled : Bool
  auto_generated : Bool
  duration_minutes : Nat
deriving DecidableEq

/-- A student record, as appended to `student_records.json` by
`submit_student_quiz`.  The non-deterministic fields (`uuid`, wall-clock
timestamp) are threaded in as parameters. -/
structure StudentRecord where
  rec_id : String
  quiz_id : String
  quiz_title : String
  student_name : String
  student_email : String
  timestamp : String
  score : Nat
  total_questions : Nat
  percentage : ℚ
deriving DecidableEq

/-- Dict lookup `quizzes_dict[quiz_id]` / membership `quiz_id in quizzes_dict`
on the association-list model of the store. -/
def lookupStore (store : List (String × Quiz)) (quiz_id : String) : Option Quiz :=
  (store.find? (fun p => p.1 = quiz_id)).map Prod.snd

/-- Python's `str.strip()`: drop leading and trailing whitespace. -/
def pyStrip (s : String) : String :=
  ⟨((s.data.dropWhile Char.isWhitespace).reverse.dropWhile Char.isWhitespace).reverse⟩

/-- Python's `c in s` membership test for a single character. -/
def pyContains (s : String) (c : Char) : Bool :=
  s.data.any (fun x => x == c)

/-- One comparison of the grading loop
(`answers[i] is not None and answers[i] == question['correct_answer']`,
`src/app.py:818`).  A `None` answer never matches, and comparing an int
against a `None` correct answer is `False` in Python. -/
def answerMatches (a c : Option Nat) : Bool :=
  match a, c with
  | some x, some y => x == y
  | _, _ => false

/-- The scoring loop of `submit_student_quiz` (`src/app.py:813-819`):
iterate over the questions with index `i` and count the positions with
`i < len(answers)` and a matching, non-`None` answer. -/
def computeScore : List Question → List (Option Nat) → Nat
  | [], _ => 0
  | _ :: qs, [] => computeScore qs []
  | q :: qs, a :: as => (if answerMatches a q.correct_answer then 1 else 0) + computeScore qs as

/-- Python's `round` at ndigits `None`, on an exact rational: round half to
even (banker's rounding). -/
def roundHalfEven (q : ℚ) : ℤ :=
  let f : ℤ := ⌊q⌋
  let r : ℚ := q - f
  if r < 1 / 2 then f
  else if 1 / 2 < r then f + 1
  else if f % 2 = 0 then f else f + 1

/-- Python's `round(x, 2)` on an exact rational. -/
def pythonRound2 (q : ℚ) : ℚ :=
  (roundHalfEven (q * 100) : ℚ) / 100

/-- Result of `submit_student_quiz`: either a rejection message or the
produced record (the HTML wrapper around the record is presentation only). -/
inductive SubmitResult where
  | err (msg : String)
  | ok (r : StudentRecord)
deriving DecidableEq

/-- `submit_student_quiz` (`src/app.py:802-853`).  Validates the quiz id and
the student identity, grades the answers, and appends a `StudentRecord` with
`percentage = round(score / total * 100, 2)` for `total > 0` and `0`
otherwise.  Returns the (possibly extended) record list and the outcome. -/
def submit_student_quiz (store : List (String × Quiz)) (records : List StudentRecord)
    (quiz_id student_name student_email : String) (answers : List (Option Nat))
    (rec_id timestamp : String) : List StudentRecord × SubmitResult :=
  if quiz_id = "" then
    (records, SubmitResult.err "Quiz not found. Please refresh and try again.")
  else
    match lookupStore store quiz_id with
    | none => (records, SubmitResult.err "Quiz not found. Please refresh and try again.")
    | some quiz =>
      if pyStrip student_name = "" ∨ pyStrip student_email = "" then
        (records, SubmitResult.err "Please enter your name and email.")
      else
        let score := computeScore quiz.questions answers
        let total := quiz.questions.length
        let record : StudentRecord :=
          { rec_id := rec_id
            quiz_id := quiz_id
            quiz_title := quiz.title
            student_name := pyStrip student_name
            student_email := pyStrip student_email
            timestamp := timestamp
            score := score
            total_questions := total
            percentage := if 0 < total then pythonRound2 (((score : ℚ) / (total : ℚ)) * 100) else 0 }
        (records ++ [record], SubmitResult.ok record)

/-- The score reported by a submission outcome, if it succeeded. -/
def submitScoreView : SubmitResult → Option Nat
  | SubmitResult.err _ => none
  | SubmitResult.ok r => some r.score

/-- The two-question demonstration quiz of the specification scenario:
correct answers `[0, 1]`. -/
def demoQuestions : List Question :=
  [{ question_text := "Demo question one, option a is right?"
     options := ["a", "b", "c", "d"]
     correct_answer := some 0
     auto_generated := false },
   { question_text := "Demo question two, option b is right?"
     options := ["a", "b", "c", "d"]
     correct_answer := some 1
     auto_generated := false }]

def demoQuiz : Quiz :=
  { title := "Demo"
    questions := demoQuestions
    filename := "demo.pdf"
    enabled := true
    auto_generated := false
    duration_minutes := 4 }

/-- A quiz with no questions, exercising the `total = 0` branch of the
percentage computation. -/
def zeroQuiz : Quiz :=
  { title := "Empty"
    questions := []
    filename := "empty.pdf"
    enabled := true
    auto_generated := false
    duration_minutes := 0 }

/-- The record produced by submitting the empty answer list to `zeroQuiz`. -/
def zeroRecord : StudentRecord :=
  { rec_id := "id1"
    quiz_id := "quiz_0"
    quiz_title := "Empty"
    student_name := "Alice"
    student_email := "alice@example.com"
    timestamp := "t1"
    score := 0
    total_questions := 0
    percentage := 0 }

/-- Eligibility test of `get_student_quiz_choices` (`src/app.py:780-783`):
the quiz is enabled and the number of questions with a set correct answer
equals the total question count. -/
def quizEligible (q : Quiz) : Bool :=
  q.enabled && (q.questions.countP (fun question => question.correct_answer.isSome)
    == q.questions.length)

/-- The dropdown label built for one offered quiz (`src/app.py:785`). -/
def quizLabel (q : Quiz) : String :=
  q.title ++ " (" ++ toString q.questions.length ++ " questions, " ++
    toString q.duration_minutes ++ " minutes)"

/-- The placeholder entry appended when no quiz is offered
(`src/app.py:788-789`); its id is the empty string. -/
def noQuizzesChoice : String × String :=
  ("", "No quizzes available - teacher must enable quizzes and set answers")

/-- `get_student_quiz_choices` (`src/app.py:776-791`): the dropdown choices
offered to students, one `(quiz_id, label)` pair per enabled, fully answered
quiz, with the placeholder entry when the list would be empty. -/
def get_student_quiz_choices (store : List (String × Quiz)) : List (String × String) :=
  let choices := store.filterMap
    (fun p => if quizEligible p.2 then some (p.1, quizLabel p.2) else none)
  if choices.isEmpty then [noQuizzesChoice] else choices

/-- A disabled quiz used to exhibit the placeholder-entry corner case. -/
def badQuiz : Quiz :=
  { title := "Bad"
    questions := []
    filename := "bad.pdf"
    enabled := false
    auto_generated := false
    duration_minutes := 1 }

/-- The remaining-time computation used by both the expiry check
(`src/app.py:1008`) and the active-quiz display (`src/app.py:1138`):
`max(0, duration - (now - start))`. -/
def remainingTime (start duration now : ℚ) : ℚ :=
  max 0 (duration - (now - start))

/-- The per-entry update performed by `toggle_quiz_enabled`
(`quizzes_dict[quiz_id]['enabled'] = not ...`, `src/app.py:796`),
acting on one association-list entry. -/
def toggleKey (qid : String) (p : String × Quiz) : String × Quiz :=
  if p.1 = qid then (p.1, { p.2 with enabled := !p.2.enabled }) else p

/-- `toggle_quiz_enabled` (`src/app.py:793-800`).  Flips the `enabled` flag of
the selected quiz when the id is truthy and present; otherwise the store is
untouched. -/
def toggle_quiz_enabled (store : List (String × Quiz)) (qid : String) :
    List (String × Quiz) × String :=
  if qid = "" then (store, "No quiz selected")
  else
    match lookupStore store qid with
    | none => (store, "No quiz selected")
    | some q =>
      (store.map (toggleKey qid),
       if !q.enabled then "Quiz enabled successfully!" else "Quiz disabled successfully!")

/-- Split a character list at every separator recognised by `f`; the
accumulator collects the current segment in reverse. -/
def splitCharAux (f : Char → Bool) : List Char → List Char → List (List Char)
  | [], acc => [acc.reverse]
  | c :: cs, acc => if f c then acc.reverse :: splitCharAux f cs [] else splitCharAux f cs (c :: acc)

/-- Split a character list on separators (the segments between separators,
empty segments included). -/
def splitChars (f : Char → Bool) (cs : List Char) : List (List Char) :=
  splitCharAux f cs []

/-- The line-cleaning prelude of `parse_mcqs_from_text`
(`src/app.py:722-726`): normalise line endings, split into lines, strip each
line and drop the blank ones.  (Collapsing `\r\n`/`\n+` before splitting and
stripping is equivalent to stripping after splitting on `\n`, because the
stripped empty segments are filtered out.) -/
def cleanLines (text : String) : List String :=
  ((splitChars (fun c => c == '\n') text.data).map (fun cs => pyStrip ⟨cs⟩)).filter
    (fun l => l ≠ "")

/-- The question-start test of the parser (`src/app.py:733`):
`'?' in line and len(line) > 10`. -/
def isQuestionLine (l : String) : Bool :=
  pyContains l '?' && decide (10 < l.length)

/-- The option-marker test (`src/app.py:744`):
`re.match(r'^[A-D][\.\)]', line, re.IGNORECASE)`. -/
def isOptionLine (l : String) : Bool :=
  match l.data with
  | c1 :: c2 :: _ =>
    (c1 == 'A' || c1 == 'B' || c1 == 'C' || c1 == 'D' ||
     c1 == 'a' || c1 == 'b' || c1 == 'c' || c1 == 'd') && (c2 == '.' || c2 == ')')
  | _ => false

/-- The option text extracted from an option line (`src/app.py:745-746`):
drop the two marker characters, then strip. -/
def optionText (l : String) : String :=
  pyStrip ⟨l.data.drop 2⟩

/-- Pad the collected options with empty strings up to four
(`src/app.py:756-757`). -/
def padTo4 (opts : List String) : List String :=
  opts ++ List.replicate (4 - opts.length) ""

/-- The question record appended by the parser (`src/app.py:759-764`). -/
def mkParsedQuestion (q : String) (opts : List String) : Question :=
  { question_text := q
    options := padTo4 opts
    correct_answer := none
    auto_generated := false }

/-- The inner option-collection loop of the parser (`src/app.py:739-752`):
starting from the lines after a question line, collect up to four option
lines, skip other lines, and stop early at the next question-like line.
Returns the collected option texts and the unconsumed lines. -/
def collectOpts : List String → Nat → List String × List String
  | [], _ => ([], [])
  | l :: rest, count =>
    if count < 4 then
      if isOptionLine l then
        let res := collectOpts rest (count + 1)
        (optionText l :: res.1, res.2)
      else if isQuestionLine l then ([], l :: rest)
      else collectOpts rest count
    else ([], l :: rest)

/-- The outer scan loop of the parser (`src/app.py:728-768`), fuelled by the
number of remaining lines (each step consumes at least one line; see
`parseGo_fuel_irrelevant`).  A candidate question is accepted with at least
two collected options; on rejection the index is incremented once more,
skipping the line at which the option collection stopped. -/
def parseGo : Nat → List String → List Question
  | 0, _ => []
  | _ + 1, [] => []
  | fuel + 1, l :: rest =>
    if isQuestionLine l then
      if 2 ≤ (collectOpts rest 0).1.length then
        mkParsedQuestion l (collectOpts rest 0).1 :: parseGo fuel (collectOpts rest 0).2
      else
        parseGo fuel ((collectOpts rest 0).2.drop 1)
    else
      parseGo fuel rest

/-- The parser's scan over a cleaned list of lines. -/
def parseLoop (lines : List String) : List Question :=
  parseGo lines.length lines

/-- `parse_mcqs_from_text` (`src/app.py:717-774`). -/
def parse_mcqs_from_text (text : String) : List Question :=
  parseLoop (cleanLines text)

/-- Sentence splitting of the effective `generate_mcqs_from_text`
(`src/app.py:600-602`): `re.split(r'[.!?]+', text)`, strip, and keep the
segments longer than 20 characters.  (Collapsing consecutive delimiters only
removes empty segments, which the length filter drops anyway.) -/
def pySentences (text : String) : List String :=
  ((splitChars (fun c => c == '.' || c == '!' || c == '?') text.data).map
    (fun cs => pyStrip ⟨cs⟩)).filter (fun s => 20 < s.length)

/-- Python's `str.split()` with no argument: split on whitespace runs,
dropping empty pieces (`src/app.py:614`). -/
def pyWords (s : String) : List String :=
  ((splitChars Char.isWhitespace s.data).map (fun cs => (⟨cs⟩ : String))).filter
    (fun w => w ≠ "")

/-- Python's `s[:n]` character-slice. -/
def pyTake (s : String) (n : Nat) : String :=
  ⟨s.data.take n⟩

/-- The fixed option list of the effective generator (`src/app.py:623-628`);
only the second entry depends on the sentence (its third word). -/
def genFixedOptions (words : List String) : List String :=
  ["The text discusses general concepts",
   "The passage focuses on " ++ (if 2 < words.length then words.getD 2 "" else "key") ++ " aspects",
   "It describes historical events",
   "The content explains technical details"]

/-- The effective `generate_mcqs_from_text` (`src/app.py:597-641`) — the
second definition in the file, which shadows the NLP-based first definition
(`src/app.py:299-377`).  For each of the first `min n #sentences` qualifying
sentences (at least five words) it emits a templated question with the fixed
options and `correct_answer = 0`; no shuffling takes place. -/
def generate_mcqs_from_text (text : String) (num_questions : Nat) : List Question :=
  let sentences := pySentences text
  let n := min num_questions sentences.length
  (List.range n).filterMap (fun i =>
    let sentence := sentences.getD i ""
    let words := pyWords sentence
    if words.length < 5 then none
    else some
      { question_text := "What is the main idea of: '" ++ pyTake sentence 100 ++ "...'?"
        options := genFixedOptions words
        correct_answer := some 0
        auto_generated := true })

/-- First concrete input for the generator evaluation. -/
def genTextA : String := "alpha beta gamma delta epsilon zeta."

/-- Second concrete input for the generator evaluation. -/
def genTextB : String := "one two three four five six seven eight."

/-- A "block" for the parser-scan statement: a question line together with
its option lines. -/
def goodBlock (b : String × List String) : Prop :=
  isQuestionLine b.1 = true ∧ isOptionLine b.1 = false ∧
  2 ≤ b.2.length ∧ b.2.length ≤ 4 ∧ ∀ o ∈ b.2, isOptionLine o = true

instance (b : String × List String) : Decidable (goodBlock b) := by
  unfold goodBlock
  infer_instance

/-- Flatten a list of blocks back into the line list the parser scans. -/
def flattenBlocks (bs : List (String × List String)) : List String :=
  (bs.map (fun b => b.1 :: b.2)).flatten

/-- The per-session Streamlit state relevant to a quiz attempt
(`st.session_state`, initialised at `src/app.py:887-917`).  The student
answer map keyed by `"q_i"` becomes a function from the question index. -/
structure SessionState where
  quiz_active : Bool
  current_quiz_id : Option String
  current_student_name : String
  current_student_email : String
  student_answers : Nat → Option Nat
  quiz_start_time : Option ℚ
  quiz_duration : Option ℚ
  time_expired : Bool
  auto_submitted : Bool
  quiz_result : Option StudentRecord
  last_refresh : ℚ
  last_auto_refresh : ℚ
  refresh_requested : Bool
  force_refresh : Bool

/-- The expiry-check block of a script pass (`src/app.py:1005-1018`).
Python truthiness of `quiz_start_time` / `quiz_duration` requires the floats
to be set and non-zero.  At most once per second (`last_refresh` throttle),
when the remaining time has reached 0 and the attempt has not yet
auto-submitted, the one-shot `auto_submitted` and `time_expired` flags are
set. -/
def tickExpiry (s : SessionState) (now : ℚ) : SessionState :=
  match s.quiz_start_time, s.quiz_duration with
  | some st0, some d0 =>
    if s.quiz_active = true ∧ st0 ≠ 0 ∧ d0 ≠ 0 then
      if 1 ≤ now - s.last_refresh then
        if remainingTime st0 d0 now ≤ 0 ∧ s.auto_submitted = false then
          { s with
              last_refresh := now
              time_expired := true
              auto_submitted := true
              force_refresh := true }
        else { s with last_refresh := now }
      else s
    else s
  | _, _ => s

/-- The manual-refresh block (`src/app.py:1021-1023`). -/
def tickRefreshRequested (s : SessionState) : SessionState :=
  if s.refresh_requested = true then
    { s with refresh_requested := false, force_refresh := true }
  else s

/-- The ten-second auto-refresh block (`src/app.py:1026-1031`);
`last_auto_refresh` is truthy only when non-zero. -/
def tickAutoRefresh (s : SessionState) (now : ℚ) : SessionState :=
  if s.quiz_active = true ∧ s.last_auto_refresh ≠ 0 ∧ 10 ≤ now - s.last_auto_refresh then
    { s with force_refresh := true, last_auto_refresh := now }
  else s

/-- The attempt-state reset performed after an auto-submission
(`src/app.py:1057-1065`). -/
def clearAttempt (s : SessionState) : SessionState :=
  { s with
      quiz_active := false
      current_quiz_id := none
      student_answers := fun _ => none
      quiz_start_time := none
      quiz_duration := none
      time_expired := false
      auto_submitted := false
      last_auto_refresh := 0
      force_refresh := true }

/-- The auto-submission handler block (`src/app.py:1034-1065`): when the
one-shot flag is set and the attempt is active and the quiz is still in the
store, collect the answers, submit, store the result, and clear the attempt
state. -/
def tickAutoSubmit (store : List (String × Quiz)) (s : SessionState)
    (records : List StudentRecord) (rec_id timestamp : String) :
    SessionState × List StudentRecord :=
  if s.auto_submitted = true ∧ s.quiz_active = true then
    match s.current_quiz_id with
    | some qid =>
      match lookupStore store qid with
      | some quiz =>
        let answers := (List.range quiz.questions.length).map (fun i => s.student_answers i)
        let out := submit_student_quiz store records qid s.current_student_name
          s.current_student_email answers rec_id timestamp
        let s1 := match out.2 with
          | SubmitResult.ok r => { s with quiz_result := some r }
          | SubmitResult.err _ => s
        (clearAttempt s1, out.1)
      | none => (s, records)
    | none => (s, records)
  else (s, records)

/-- One observation tick: the top-level timer/auto-submit logic executed by a
script pass (`src/app.py:1005-1065`), in program order. -/
def tick (store : List (String × Quiz)) (sr : SessionState × List StudentRecord)
    (now : ℚ) (rec_id timestamp : String) : SessionState × List StudentRecord :=
  tickAutoSubmit store (tickAutoRefresh (tickRefreshRequested (tickExpiry sr.1 now)) now)
    sr.2 rec_id timestamp

/-- Iterate observation ticks over a list of `(time, record id, timestamp)`
events. -/
def iterTicks (store : List (String × Quiz)) :
    List (ℚ × String × String) → SessionState × List StudentRecord →
      SessionState × List StudentRecord
  | [], sr => sr
  | ev :: evs, sr => iterTicks store evs (tick store sr ev.1 ev.2.1 ev.2.2)

/-- A session in which no further tick can append a record: either the
attempt is inactive, or the pending auto-submission refers to a quiz that is
not in the store. -/
def Dormant (store : List (String × Quiz)) (s : SessionState) : Prop :=
  s.quiz_active = false ∨
    (s.auto_submitted = true ∧
      ∀ qid, s.current_quiz_id = some qid → lookupStore store qid = none)

/-- A concrete active session one tick away from expiry. -/
def demoSession : SessionState :=
  { quiz_active := true
    current_quiz_id := some "quiz_1"
    current_student_name := "Alice"
    current_student_email := "alice@example.com"
    student_answers := fun _ => none
    quiz_start_time := some 1
    quiz_duration := some 60
    time_expired := false
    auto_submitted := false
    quiz_result := none
    last_refresh := 0
    last_auto_refresh := 1
    refresh_requested := false
    force_refresh := false }

/-- Input text exhibiting marker-only option lines. -/
def c7Text : String := "What is your favorite color?\nA.\nB."

/-- The question line of `c7Text`. -/
def c7Question : String := "What is your favorite color?"

/-- Input text in which a rejected candidate is followed by a question line
with two well-formed option lines. -/
def c8Text : String :=
  "Is this the first question line?\nA. x\nIs this the second question line?\nA. y\nB. z"

/-- The second question line of `c8Text`. -/
def c8Q2 : String := "Is this the second question line?"

/-- A two-block well-formed parser input. -/
def c8Blocks : List (String × List String) :=
  [("Is this the first question line?", ["A. red", "B. blue"]),
   ("Is this the second question line?", ["A. one", "B. two", "C. three"])]

/-- A question line and well-formed option lines for the block witness. -/
def c7WitnessQ : String := "Is this a sufficiently long question?"

def c7WitnessOpts : List String := ["A. red", "B. blue"]

lemma computeScore_nil_answers (qs : List Question) : computeScore qs [] = 0 := by
  induction qs with
  | nil => rfl
  | cons q qs ih => simpa [computeScore] using ih

lemma computeScore_replicate_none (qs : List Question) (n : Nat) :
    computeScore qs (List.replicate n none) = 0 := by
  induction qs generalizing n with
  | nil => rfl
  | cons q qs ih =>
    cases n with
    | zero => simpa [computeScore] using computeScore_nil_answers qs
    | succ m => simpa [computeScore, answerMatches] using ih m

lemma computeScore_eq_countP (qs : List Question) (ans : List (Option Nat)) :
    computeScore qs ans =
      (List.range qs.length).countP (fun i =>
        match ans.get? i, qs.get? i with
        | some (some a), some q => q.correct_answer == some a
        | _, _ => false) := by
  induction qs generalizing ans with
  | nil => simp [computeScore]
  | cons q qs ih =>
    have hrange : List.range (qs.length + 1) = 0 :: (List.range qs.length).map Nat.succ :=
      List.range_succ_eq_map qs.length
    cases ans with
    | nil =>
      rw [computeScore, computeScore_nil_answers]
      simp
    | cons a as =>
      rw [computeScore, ih as]
      simp only [List.length_cons, hrange, List.countP_cons, List.countP_map]
      rw [Nat.add_comm]
      congr 1
      · cases a with
        | none => simp [answerMatches]
        | some x =>
          cases h : q.correct_answer with
          | none => simp [answerMatches, h]
          | some y =>
            simp only [answerMatches, List.get?_cons_zero, h, beq_iff_eq]
            rcases eq_or_ne x y with rfl | hne
            · simp
            · simp [hne, Ne.symm hne]

/-- C1.  Grading: the computed score is exactly the count of positions whose
(non-`None`) answer equals the question's (non-`None`) correct answer;
grading is deterministic in the quiz and answers (independent of the record
list, record id and timestamp, with all-unset answers scoring 0); and the
two-question scenario with correct answers `[0, 1]` scores
`[0,1] ↦ 2`, `[1,1] ↦ 1`, `[None,1] ↦ 1`. -/
theorem grading_spec :
    (∀ (qs : List Question) (ans : List (Option Nat)),
      computeScore qs ans =
        (List.range qs.length).countP (fun i =>
          match ans.get? i, qs.get? i with
          | some (some a), some q => q.correct_answer == some a
          | _, _ => false))
    ∧ (∀ (qs : List Question) (n : Nat), computeScore qs (List.replicate n none) = 0)
    ∧ (∀ (store : List (String × Quiz)) (r1 r2 : List StudentRecord)
        (qid nm em i1 t1 i2 t2 : String) (ans : List (Option Nat)),
        submitScoreView (submit_student_quiz store r1 qid nm em ans i1 t1).2 =
          submitScoreView (submit_student_quiz store r2 qid nm em ans i2 t2).2)
    ∧ (computeScore demoQuestions [some 0, some 1] = 2
       ∧ computeScore demoQuestions [some 1, some 1] = 1
       ∧ computeScore demoQuestions [none, some 1] = 1) := by
  refine ⟨computeScore_eq_countP, computeScore_replicate_none, ?_, by decide, by decide, by decide⟩
  intro store r1 r2 qid nm em i1 t1 i2 t2 ans
  unfold submit_student_quiz
  split
  · rfl
  · cases lookupStore store qid with
    | none => rfl
    | some quiz =>
      simp only
      split
      · rfl
      · rfl

/-- C2.  Every successfully produced record carries
`percentage = round(score / total * 100, 2)` when the question count is
positive, and `0` when it is zero (`src/app.py:831`). -/
theorem percentage_spec (store : List (String × Quiz)) (recs : List StudentRecord)
    (qid nm em rid ts : String) (ans : List (Option Nat))
    (recs' : List StudentRecord) (r : StudentRecord)
    (h : submit_student_quiz store recs qid nm em ans rid ts = (recs', SubmitResult.ok r)) :
    r.percentage =
      if r.total_questions = 0 then 0
      else pythonRound2 (((r.score : ℚ) / (r.total_questions : ℚ)) * 100) := by
  unfold submit_student_quiz at h
  split at h
  · simp at h
  · cases hfind : lookupStore store qid with
    | none => rw [hfind] at h; simp at h
    | some quiz =>
      rw [hfind] at h
      simp only at h
      split at h
      · simp at h
      · have hr : r =
            { rec_id := rid
              quiz_id := qid
              quiz_title := quiz.title
              student_name := pyStrip nm
              student_email := pyStrip em
              timestamp := ts
              score := computeScore quiz.questions ans
              total_questions := quiz.questions.length
              percentage :=
                if 0 < quiz.questions.length then
                  pythonRound2 (((computeScore quiz.questions ans : ℚ) /
                    (quiz.questions.length : ℚ)) * 100)
                else 0 } := by
          have := congrArg Prod.snd h
          simp only at this
          cases this
          rfl
        subst hr
        simp only
        rcases Nat.eq_zero_or_pos quiz.questions.length with hz | hp
        · simp [hz]
        · simp [hp, Nat.pos_iff_ne_zero.mp hp]

/-- Witness for `percentage_spec` at a concrete successful submission. -/
theorem percentage_spec_witness :
    (submit_student_quiz [("quiz_0", zeroQuiz)] [] "quiz_0" "Alice" "alice@example.com"
        [] "id1" "t1" = ([zeroRecord], SubmitResult.ok zeroRecord))
    ∧ zeroRecord.percentage =
        (if zeroRecord.total_questions = 0 then 0
         else pythonRound2 (((zeroRecord.score : ℚ) / (zeroRecord.total_questions : ℚ)) * 100)) :=
  ⟨by decide,
   percentage_spec [("quiz_0", zeroQuiz)] [] "quiz_0" "Alice" "alice@example.com" "id1" "t1"
     [] [zeroRecord] zeroRecord (by decide)⟩

/-- C9.  A submission that fails validation (quiz id absent from the store,
or blank name or email) yields an error message and leaves the record list
unchanged (`src/app.py:804-808`). -/
theorem submit_validation_no_change (store : List (String × Quiz))
    (recs : List StudentRecord) (qid nm em rid ts : String) (ans : List (Option Nat))
    (h : lookupStore store qid = none ∨ pyStrip nm = "" ∨ pyStrip em = "") :
    ∃ msg, submit_student_quiz store recs qid nm em ans rid ts = (recs, SubmitResult.err msg) := by
  unfold submit_student_quiz
  split
  · exact ⟨_, rfl⟩
  · cases hfind : lookupStore store qid with
    | none => exact ⟨_, rfl⟩
    | some quiz =>
      have h2 : pyStrip nm = "" ∨ pyStrip em = "" := by
        rcases h with h | h | h
        · rw [hfind] at h; cases h
        · exact Or.inl h
        · exact Or.inr h
      simp only
      rw [if_pos h2]
      exact ⟨_, rfl⟩

/-- Witness for `submit_validation_no_change`: unknown quiz id. -/
theorem submit_validation_no_change_witness :
    (lookupStore [("quiz_1", demoQuiz)] "missing" = none ∨
      pyStrip "Alice" = "" ∨ pyStrip "alice@example.com" = "") ∧
    (∃ msg, submit_student_quiz [("quiz_1", demoQuiz)] [] "missing" "Alice"
        "alice@example.com" [some 0] "id1" "t1" = ([], SubmitResult.err msg)) :=
  ⟨Or.inl rfl,
   submit_validation_no_change [("quiz_1", demoQuiz)] [] "missing" "Alice"
     "alice@example.com" "id1" "t1" [some 0] (Or.inl rfl)⟩

/-- C5.  Remaining time is never negative and is monotonically non-increasing
in the observation time within one attempt. -/
theorem remaining_time_spec (start duration t1 t2 : ℚ) (h : t1 ≤ t2) :
    0 ≤ remainingTime start duration t1 ∧
    remainingTime start duration t2 ≤ remainingTime start duration t1 := by
  refine ⟨le_max_left 0 _, ?_⟩
  exact max_le_max le_rfl (by linarith)

/-- Witness for `remaining_time_spec` at concrete times. -/
theorem remaining_time_spec_witness :
    ((3 : ℚ) ≤ 5) ∧
    (0 ≤ remainingTime 0 10 3 ∧ remainingTime 0 10 5 ≤ remainingTime 0 10 3) :=
  ⟨by norm_num, remaining_time_spec 0 10 3 5 (by norm_num)⟩

lemma toggleKey_toggleKey (qid : String) (p : String × Quiz) :
    toggleKey qid (toggleKey qid p) = p := by
  unfold toggleKey
  by_cases hp : p.1 = qid
  · cases p with
    | mk k v =>
      cases v
      simp_all
  · simp [hp]

lemma lookupStore_map_toggle (store : List (String × Quiz)) (qid k : String) :
    lookupStore (store.map (toggleKey qid)) k =
      (lookupStore store k).map
        (fun q => if k = qid then { q with enabled := !q.enabled } else q) := by
  induction store with
  | nil => rfl
  | cons p ps ih =>
    by_cases hpk : p.1 = k
    · simp only [lookupStore, List.map_cons, List.find?_cons] at *
      have hfst : (toggleKey qid p).1 = p.1 := by
        unfold toggleKey; split <;> rfl
      rw [show (decide ((toggleKey qid p).1 = k)) = true by simp [hfst, hpk]]
      rw [show (decide (p.1 = k)) = true by simp [hpk]]
      simp only [Option.map_some]
      by_cases hkq : k = qid
      · have : p.1 = qid := hpk.trans hkq
        simp [toggleKey, this, hkq]
      · have : p.1 ≠ qid := fun hc => hkq (hpk.symm.trans hc)
        simp [toggleKey, this, hkq]
    · simp only [lookupStore, List.map_cons, List.find?_cons] at *
      have hfst : (toggleKey qid p).1 = p.1 := by
        unfold toggleKey; split <;> rfl
      rw [show (decide ((toggleKey qid p).1 = k)) = false by simp [hfst, hpk]]
      rw [show (decide (p.1 = k)) = false by simp [hpk]]
      exact ih

lemma map_toggleKey_involutive (store : List (String × Quiz)) (qid : String) :
    (store.map (toggleKey qid)).map (toggleKey qid) = store := by
  induction store with
  | nil => rfl
  | cons p ps ih => simp [toggleKey_toggleKey, ih]

/-- C10.  `toggle_quiz_enabled` changes at most the selected quiz's `enabled`
flag: every other quiz is untouched, every other field of the selected quiz is
untouched, and applying it twice restores the store exactly. -/
theorem toggle_frame_involution (store : List (String × Quiz)) (qid : String) (q : Quiz)
    (h : lookupStore store qid = some q) :
    (∀ k, k ≠ qid → lookupStore (toggle_quiz_enabled store qid).1 k = lookupStore store k)
    ∧ (∃ q', lookupStore (toggle_quiz_enabled store qid).1 qid = some q'
        ∧ q'.title = q.title ∧ q'.questions = q.questions ∧ q'.filename = q.filename
        ∧ q'.auto_generated = q.auto_generated ∧ q'.duration_minutes = q.duration_minutes)
    ∧ (toggle_quiz_enabled (toggle_quiz_enabled store qid).1 qid).1 = store := by
  by_cases hq : qid = ""
  · subst hq
    refine ⟨?_, ?_, ?_⟩
    · intro k _
      simp [toggle_quiz_enabled]
    · exact ⟨q, by simpa [toggle_quiz_enabled] using h, rfl, rfl, rfl, rfl, rfl⟩
    · simp [toggle_quiz_enabled]
  · have htog : (toggle_quiz_enabled store qid).1 = store.map (toggleKey qid) := by
      simp [toggle_quiz_enabled, hq, h]
    refine ⟨?_, ?_, ?_⟩
    · intro k hk
      rw [htog, lookupStore_map_toggle]
      cases lookupStore store k with
      | none => rfl
      | some v => simp [hk]
    · refine ⟨{ q with enabled := !q.enabled }, ?_, rfl, rfl, rfl, rfl, rfl⟩
      rw [htog, lookupStore_map_toggle, h]
      simp
    · have h3 : lookupStore (store.map (toggleKey qid)) qid =
          some { q with enabled := !q.enabled } := by
        rw [lookupStore_map_toggle, h]
        simp
      rw [htog]
      simp only [toggle_quiz_enabled, if_neg hq, h3]
      exact map_toggleKey_involutive store qid

/-- Witness for `toggle_frame_involution` on a concrete two-quiz store. -/
theorem toggle_frame_involution_witness :
    (lookupStore [("quiz_1", demoQuiz), ("quiz_2", demoQuiz)] "quiz_1" = some demoQuiz)
    ∧ ((∀ k, k ≠ "quiz_1" →
        lookupStore (toggle_quiz_enabled [("quiz_1", demoQuiz), ("quiz_2", demoQuiz)] "quiz_1").1 k =
          lookupStore [("quiz_1", demoQuiz), ("quiz_2", demoQuiz)] k)
      ∧ (∃ q', lookupStore
            (toggle_quiz_enabled [("quiz_1", demoQuiz), ("quiz_2", demoQuiz)] "quiz_1").1 "quiz_1" =
            some q'
          ∧ q'.title = demoQuiz.title ∧ q'.questions = demoQuiz.questions
          ∧ q'.filename = demoQuiz.filename ∧ q'.auto_generated = demoQuiz.auto_generated
          ∧ q'.duration_minutes = demoQuiz.duration_minutes)
      ∧ (toggle_quiz_enabled
          (toggle_quiz_enabled [("quiz_1", demoQuiz), ("quiz_2", demoQuiz)] "quiz_1").1
          "quiz_1").1 = [("quiz_1", demoQuiz), ("quiz_2", demoQuiz)]) :=
  ⟨rfl, toggle_frame_involution [("quiz_1", demoQuiz), ("quiz_2", demoQuiz)] "quiz_1" demoQuiz rfl⟩

lemma assoc_lookup_unique (store : List (String × Quiz))
    (hnd : (store.map Prod.fst).Nodup) (qid : String) (q q' : Quiz)
    (h1 : (qid, q) ∈ store) (h2 : (qid, q') ∈ store) : q = q' := by
  induction store with
  | nil => cases h1
  | cons p ps ih =>
    simp only [List.map_cons, List.nodup_cons] at hnd
    rcases List.mem_cons.mp h1 with rfl | h1t
    · rcases List.mem_cons.mp h2 with h | h2t
      · exact (congrArg Prod.snd h).symm
      · exact absurd (List.mem_map_of_mem Prod.fst h2t) hnd.1
    · rcases List.mem_cons.mp h2 with h | h2t
      · rw [← h] at hnd
        exact absurd (List.mem_map_of_mem Prod.fst h1t) hnd.1
      · exact ih hnd.2 h1t h2t

lemma quizEligible_iff (q : Quiz) :
    quizEligible q = true ↔
      (q.enabled = true ∧ ∀ question ∈ q.questions, question.correct_answer.isSome = true) := by
  simp [quizEligible, List.countP_eq_length]

/-- C4 counterexample.  As stated, the claim fails: when no quiz is eligible
the choice list is the single placeholder `("", …)`, so a quiz stored under
the empty-string id "appears" in the list without being eligible. -/
theorem student_choices_counterexample :
    ¬ (∀ (store : List (String × Quiz)) (qid : String) (q : Quiz),
        (qid, q) ∈ store → (store.map Prod.fst).Nodup →
        (qid ∈ (get_student_quiz_choices store).map Prod.fst ↔ quizEligible q = true)) := by
  intro hclaim
  have hmem : "" ∈ (get_student_quiz_choices [("", badQuiz)]).map Prod.fst := by decide
  have helig := (hclaim [("", badQuiz)] "" badQuiz (by simp) (by simp)).mp hmem
  exact absurd helig (by decide)

/-- C4 (amended).  A quiz stored under a non-empty id appears in the student
quiz-choice list iff it is enabled and every question has a set correct
answer; the empty id is reserved for the "no quizzes" placeholder entry. -/
theorem student_choices_iff (store : List (String × Quiz)) (qid : String) (q : Quiz)
    (hmem : (qid, q) ∈ store) (hnd : (store.map Prod.fst).Nodup) (hne : qid ≠ "") :
    qid ∈ (get_student_quiz_choices store).map Prod.fst ↔
      (q.enabled = true ∧ ∀ question ∈ q.questions, question.correct_answer.isSome = true) := by
  rw [← quizEligible_iff]
  unfold get_student_quiz_choices
  constructor
  · intro hin
    by_cases hempty : (store.filterMap
        (fun p => if quizEligible p.2 then some (p.1, quizLabel p.2) else none)).isEmpty
    · rw [if_pos hempty] at hin
      simp [noQuizzesChoice] at hin
      exact absurd hin hne
    · rw [if_neg hempty] at hin
      obtain ⟨pr, hpr, hfst⟩ := List.mem_map.mp hin
      obtain ⟨p, hp, hsome⟩ := List.mem_filterMap.mp hpr
      by_cases helig : quizEligible p.2 = true
      · rw [if_pos helig] at hsome
        cases hsome
        have hq : p.2 = q := by
          have := assoc_lookup_unique store hnd qid p.2 q ?_ hmem
          · exact this
          · rw [← hfst]
            simpa using hp
        rw [← hq]
        exact helig
      · rw [if_neg helig] at hsome
        cases hsome
  · intro helig
    have hx : (qid, quizLabel q) ∈ store.filterMap
        (fun p => if quizEligible p.2 then some (p.1, quizLabel p.2) else none) :=
      List.mem_filterMap.mpr ⟨(qid, q), hmem, by simp [helig]⟩
    have hne2 : ¬ (store.filterMap
        (fun p => if quizEligible p.2 then some (p.1, quizLabel p.2) else none)).isEmpty := by
      intro hE
      rw [List.isEmpty_iff] at hE
      rw [hE] at hx
      cases hx
    rw [if_neg hne2]
    exact List.mem_map_of_mem Prod.fst hx

/-- Witness for `student_choices_iff` on a concrete one-quiz store. -/
theorem student_choices_iff_witness :
    ((("quiz_1", demoQuiz) ∈ [("quiz_1", demoQuiz)])
      ∧ (([("quiz_1", demoQuiz)].map Prod.fst).Nodup)
      ∧ ("quiz_1" ≠ ""))
    ∧ ("quiz_1" ∈ (get_student_quiz_choices [("quiz_1", demoQuiz)]).map Prod.fst ↔
        (demoQuiz.enabled = true ∧
          ∀ question ∈ demoQuiz.questions, question.correct_answer.isSome = true)) :=
  ⟨⟨by decide, by decide, by decide⟩,
   student_choices_iff [("quiz_1", demoQuiz)] "quiz_1" demoQuiz (by decide) (by decide)
     (by decide)⟩

lemma collectOpts_snd_length (ls : List String) (c : Nat) :
    (collectOpts ls c).2.length ≤ ls.length := by
  induction ls generalizing c with
  | nil => simp [collectOpts]
  | cons l rest ih =>
    unfold collectOpts
    split_ifs with h1 h2 h3
    · exact (ih (c + 1)).trans (Nat.le_succ _)
    · simp
    · exact (ih c).trans (Nat.le_succ _)
    · simp

lemma parseGo_fuel_irrelevant (fuel fuel' : Nat) (ls : List String)
    (h : ls.length ≤ fuel) (h' : ls.length ≤ fuel') :
    parseGo fuel ls = parseGo fuel' ls := by
  induction fuel generalizing fuel' ls with
  | zero =>
    have hnil : ls = [] := List.length_eq_zero.mp (Nat.le_zero.mp h)
    subst hnil
    cases fuel' <;> rfl
  | succ f ih =>
    cases ls with
    | nil => cases fuel' <;> rfl
    | cons l rest =>
      cases fuel' with
      | zero => exact absurd h' (by simp)
      | succ f' =>
        have hrest : rest.length ≤ f := Nat.succ_le_succ_iff.mp h
        have hrest' : rest.length ≤ f' := Nat.succ_le_succ_iff.mp h'
        simp only [parseGo]
        split_ifs with hq hlen
        · exact congrArg _
            (ih _ _ ((collectOpts_snd_length rest 0).trans hrest)
              ((collectOpts_snd_length rest 0).trans hrest'))
        · exact ih _ _
            (((List.length_drop 1 _).le.trans (Nat.sub_le _ _)).trans
              ((collectOpts_snd_length rest 0).trans hrest))
            (((List.length_drop 1 _).le.trans (Nat.sub_le _ _)).trans
              ((collectOpts_snd_length rest 0).trans hrest'))
        · exact ih _ _ hrest hrest'

lemma parseLoop_cons (l : String) (rest : List String) :
    parseLoop (l :: rest) =
      if isQuestionLine l then
        if 2 ≤ (collectOpts rest 0).1.length then
          mkParsedQuestion l (collectOpts rest 0).1 :: parseLoop (collectOpts rest 0).2
        else parseLoop ((collectOpts rest 0).2.drop 1)
      else parseLoop rest := by
  unfold parseLoop
  simp only [List.length_cons, parseGo]
  split_ifs with hq hlen
  · exact congrArg _
      (parseGo_fuel_irrelevant _ _ _ (collectOpts_snd_length rest 0) le_rfl)
  · exact parseGo_fuel_irrelevant _ _ _
      (((List.length_drop 1 _).le.trans (Nat.sub_le _ _)).trans
        (collectOpts_snd_length rest 0)) le_rfl
  · rfl

lemma collectOpts_append (opts rest : List String) (c : Nat)
    (hlen : c + opts.length ≤ 4)
    (hopts : ∀ o ∈ opts, isOptionLine o = true)
    (hrest : c + opts.length = 4 ∨ rest = [] ∨
      (isOptionLine rest.headI = false ∧ isQuestionLine rest.headI = true)) :
    collectOpts (opts ++ rest) c = (opts.map optionText, rest) := by
  induction opts generalizing c with
  | nil =>
    simp only [List.nil_append, List.map_nil]
    cases rest with
    | nil => simp [collectOpts]
    | cons r rs =>
      rcases hrest with h4 | hnil | ⟨hno, hyes⟩
      · have hc : ¬ c < 4 := by
          simp only [List.length_nil, Nat.add_zero] at h4
          omega
        simp [collectOpts, hc]
      · cases hnil
      · simp only [List.headI_cons] at hno hyes
        by_cases hc : c < 4
        · simp [collectOpts, hc, hno, hyes]
        · simp [collectOpts, hc]
  | cons o os ih =>
    have hc : c < 4 := by
      simp only [List.length_cons] at hlen
      omega
    have ho : isOptionLine o = true := hopts o (List.mem_cons_self _ _)
    have hih := ih (c + 1)
      (by simp only [List.length_cons] at hlen; omega)
      (fun x hx => hopts x (List.mem_cons_of_mem _ hx))
      (by
        rcases hrest with h4 | hr | hr
        · left
          simp only [List.length_cons] at h4
          omega
        · exact Or.inr (Or.inl hr)
        · exact Or.inr (Or.inr hr))
    simp [collectOpts, hc, ho, hih]

lemma parseLoop_block (q : String) (opts rest : List String)
    (hq : isQuestionLine q = true)
    (h2 : 2 ≤ opts.length) (h4 : opts.length ≤ 4)
    (hopts : ∀ o ∈ opts, isOptionLine o = true)
    (hrest : opts.length = 4 ∨ rest = [] ∨
      (isOptionLine rest.headI = false ∧ isQuestionLine rest.headI = true)) :
    parseLoop (q :: (opts ++ rest)) =
      mkParsedQuestion q (opts.map optionText) :: parseLoop rest := by
  rw [parseLoop_cons, if_pos hq]
  have hco := collectOpts_append opts rest 0 (by omega) hopts
    (by simpa using hrest)
  rw [hco]
  rw [if_pos (by simpa using h2)]

lemma parseGo_question_text (fuel : Nat) (ls : List String) (Q : Question)
    (h : Q ∈ parseGo fuel ls) : isQuestionLine Q.question_text = true := by
  induction fuel generalizing ls with
  | zero => cases h
  | succ f ih =>
    cases ls with
    | nil => cases h
    | cons l rest =>
      simp only [parseGo] at h
      split_ifs at h with hq hlen
      · rcases List.mem_cons.mp h with rfl | ht
        · simpa [mkParsedQuestion] using hq
        · exact ih _ ht
      · exact ih _ h
      · exact ih _ h

/-- C7 counterexample.  As stated, the claim fails: a question line followed
by marker-only option lines (`"A."`, `"B."`) parses into one question whose
collected options are all empty, so the "at least 2 non-empty options" part
does not hold. -/
theorem parser_c7_counterexample :
    ¬ (∀ (text q : String) (opts : List String),
        cleanLines text = q :: opts → isQuestionLine q = true →
        2 ≤ opts.length → opts.length ≤ 4 →
        (∀ o ∈ opts, isOptionLine o = true) →
        ∃ Q, parse_mcqs_from_text text = [Q] ∧ Q.correct_answer = none ∧
          Q.options.length = 4 ∧ 2 ≤ (Q.options.filter (fun o => o ≠ "")).length) := by
  intro hclaim
  obtain ⟨Q, hQ, -, -, hcnt⟩ :=
    hclaim c7Text c7Question (["A.", "B."]) (by decide) (by decide) (by decide)
      (by decide) (by decide)
  rw [show parse_mcqs_from_text c7Text = [mkParsedQuestion c7Question ["", ""]] from by decide]
    at hQ
  have hQe : Q = mkParsedQuestion c7Question ["", ""] :=
    (List.cons_eq_cons.mp hQ).1.symm
  subst hQe
  exact absurd hcnt (by decide)

/-- C7 (amended).  A question line followed by 2-4 option-marker lines parses
into exactly one question with `correct_answer` unset and the options padded
with empty strings to length 4; the collected options are the text after each
marker, so when every option line has non-blank text after its marker at
least 2 options are non-empty.  A line that is not question-like (in
particular one with `'?'` but not longer than 10 characters) never starts a
question: it is skipped at the head of the scan, and every parsed question's
text is question-like. -/
theorem parser_block_spec :
    (∀ (q : String) (opts : List String),
      isQuestionLine q = true → 2 ≤ opts.length → opts.length ≤ 4 →
      (∀ o ∈ opts, isOptionLine o = true) →
      parseLoop (q :: opts) = [mkParsedQuestion q (opts.map optionText)]
      ∧ (mkParsedQuestion q (opts.map optionText)).correct_answer = none
      ∧ (mkParsedQuestion q (opts.map optionText)).options.length = 4
      ∧ ((∀ o ∈ opts, optionText o ≠ "") →
          2 ≤ ((mkParsedQuestion q (opts.map optionText)).options.filter
            (fun o => o ≠ "")).length))
    ∧ (∀ (s : String) (rest : List String), isQuestionLine s = false →
        parseLoop (s :: rest) = parseLoop rest)
    ∧ (∀ (ls : List String) (Q : Question), Q ∈ parseLoop ls →
        isQuestionLine Q.question_text = true) := by
  refine ⟨?_, ?_, ?_⟩
  · intro q opts hq h2 h4 hopts
    have hblock := parseLoop_block q opts [] hq h2 h4 hopts (Or.inr (Or.inl rfl))
    rw [List.append_nil] at hblock
    refine ⟨hblock, rfl, ?_, ?_⟩
    · simp only [mkParsedQuestion, padTo4, List.length_append, List.length_map,
        List.length_replicate]
      omega
    · intro hne
      simp only [mkParsedQuestion, padTo4, List.filter_append]
      have hfull : (opts.map optionText).filter (fun o => o ≠ "") = opts.map optionText := by
        apply List.filter_eq_self.mpr
        intro o ho
        obtain ⟨o0, ho0, rfl⟩ := List.mem_map.mp ho
        simpa using hne o0 ho0
      rw [hfull]
      simp only [List.length_append, List.length_map]
      omega
  · intro s rest hs
    rw [parseLoop_cons, if_neg (by simp [hs])]
  · intro ls Q h
    exact parseGo_question_text _ _ _ h

/-- Witness for `parser_block_spec` on a concrete question-and-options
input. -/
theorem parser_block_spec_witness :
    (isQuestionLine c7WitnessQ = true ∧ 2 ≤ c7WitnessOpts.length ∧ c7WitnessOpts.length ≤ 4
      ∧ (∀ o ∈ c7WitnessOpts, isOptionLine o = true))
    ∧ (parseLoop (c7WitnessQ :: c7WitnessOpts) =
        [mkParsedQuestion c7WitnessQ (c7WitnessOpts.map optionText)]
      ∧ (mkParsedQuestion c7WitnessQ (c7WitnessOpts.map optionText)).correct_answer = none
      ∧ (mkParsedQuestion c7WitnessQ (c7WitnessOpts.map optionText)).options.length = 4
      ∧ ((∀ o ∈ c7WitnessOpts, optionText o ≠ "") →
          2 ≤ ((mkParsedQuestion c7WitnessQ (c7WitnessOpts.map optionText)).options.filter
            (fun o => o ≠ "")).length)) :=
  ⟨⟨by decide, by decide, by decide, by decide⟩,
   parser_block_spec.1 c7WitnessQ c7WitnessOpts (by decide) (by decide) (by decide)
     (by decide)⟩

/-- C8 counterexample.  As stated, the claim fails: in `c8Text` the second
question line terminates the option collection of the rejected first
candidate, and the reject branch (`i += 1`, `src/app.py:766`) skips it, so no
question is produced at all. -/
theorem parser_c8_counterexample :
    ¬ (∀ (text : String) (pre : List String) (q : String) (opts rest : List String),
        cleanLines text = pre ++ q :: (opts ++ rest) → isQuestionLine q = true →
        2 ≤ opts.length → opts.length ≤ 4 →
        (∀ o ∈ opts, isOptionLine o = true ∧ optionText o ≠ "") →
        ∃ Q ∈ parse_mcqs_from_text text, Q.question_text = q) := by
  intro hclaim
  obtain ⟨Q, hQ, -⟩ :=
    hclaim c8Text (["Is this the first question line?", "A. x"]) c8Q2 (["A. y", "B. z"]) []
      (by decide) (by decide) (by decide) (by decide) (by decide)
  rw [show parse_mcqs_from_text c8Text = [] from by decide] at hQ
  cases hQ

/-- C8 (amended).  A question-like line starts a new question whenever the
scan reaches it; but a question-like line that terminated the option
collection of a candidate rejected for having fewer than two options is
skipped.  In particular, on inputs made of well-formed blocks (a question
line that is not itself option-like, followed by 2-4 option lines) every
block head starts a question, one output question per block, in order. -/
theorem parser_scan_blocks (bs : List (String × List String))
    (h : ∀ b ∈ bs, goodBlock b) :
    (parseLoop (flattenBlocks bs)).map Question.question_text = bs.map Prod.fst := by
  induction bs with
  | nil => rfl
  | cons b bs ih =>
    obtain ⟨hq, hno, h2, h4, hopts⟩ := h b (List.mem_cons_self _ _)
    have hflat : flattenBlocks (b :: bs) = b.1 :: (b.2 ++ flattenBlocks bs) := by
      simp [flattenBlocks]
    have hrest : b.2.length = 4 ∨ flattenBlocks bs = [] ∨
        (isOptionLine (flattenBlocks bs).headI = false ∧
          isQuestionLine (flattenBlocks bs).headI = true) := by
      cases bs with
      | nil => exact Or.inr (Or.inl rfl)
      | cons b' bs' =>
        right; right
        have hb' := h b' (List.mem_cons_of_mem _ (List.mem_cons_self _ _))
        have hhead : (flattenBlocks (b' :: bs')).headI = b'.1 := by
          simp [flattenBlocks]
        rw [hhead]
        exact ⟨hb'.2.1, hb'.1⟩
    rw [hflat, parseLoop_block b.1 b.2 (flattenBlocks bs) hq h2 h4 hopts hrest]
    simp only [List.map_cons, mkParsedQuestion]
    rw [ih (fun x hx => h x (List.mem_cons_of_mem _ hx))]

/-- Witness for `parser_scan_blocks` on a concrete two-block input. -/
theorem parser_scan_blocks_witness :
    (∀ b ∈ c8Blocks, goodBlock b)
    ∧ (parseLoop (flattenBlocks c8Blocks)).map Question.question_text =
        c8Blocks.map Prod.fst :=
  ⟨by decide, parser_scan_blocks c8Blocks (by decide)⟩

/-- C6.  Evaluation of the effective `generate_mcqs_from_text` (the second
definition, which shadows the NLP one): on two concrete inputs it emits the
template options in fixed declaration order and always sets
`correct_answer = 0`; no shuffling of a designated correct string occurs. -/
theorem generator_effective_behavior :
    generate_mcqs_from_text genTextA 5 =
      [{ question_text := "What is the main idea of: 'alpha beta gamma delta epsilon zeta...'?"
         options := ["The text discusses general concepts",
                     "The passage focuses on gamma aspects",
                     "It describes historical events",
                     "The content explains technical details"]
         correct_answer := some 0
         auto_generated := true }]
    ∧ generate_mcqs_from_text genTextB 5 =
      [{ question_text := "What is the main idea of: 'one two three four five six seven eight...'?"
         options := ["The text discusses general concepts",
                     "The passage focuses on three aspects",
                     "It describes historical events",
                     "The content explains technical details"]
         correct_answer := some 0
         auto_generated := true }] :=
  ⟨by decide, by decide⟩

lemma tickExpiry_active (s : SessionState) (now : ℚ) :
    (tickExpiry s now).quiz_active = s.quiz_active := by
  unfold tickExpiry
  split
  · split_ifs <;> rfl
  · rfl

lemma tickExpiry_cqid (s : SessionState) (now : ℚ) :
    (tickExpiry s now).current_quiz_id = s.current_quiz_id := by
  unfold tickExpiry
  split
  · split_ifs <;> rfl
  · rfl

lemma tickExpiry_auto_true (s : SessionState) (now : ℚ) (h : s.auto_submitted = true) :
    (tickExpiry s now).auto_submitted = true := by
  unfold tickExpiry
  split
  · split_ifs <;> first | rfl | exact h
  · exact h

lemma tickRR_active (s : SessionState) :
    (tickRefreshRequested s).quiz_active = s.quiz_active := by
  unfold tickRefreshRequested
  split_ifs <;> rfl

lemma tickRR_cqid (s : SessionState) :
    (tickRefreshRequested s).current_quiz_id = s.current_quiz_id := by
  unfold tickRefreshRequested
  split_ifs <;> rfl

lemma tickRR_auto (s : SessionState) :
    (tickRefreshRequested s).auto_submitted = s.auto_submitted := by
  unfold tickRefreshRequested
  split_ifs <;> rfl

lemma tickAR_active (s : SessionState) (now : ℚ) :
    (tickAutoRefresh s now).quiz_active = s.quiz_active := by
  unfold tickAutoRefresh
  split_ifs <;> rfl

lemma tickAR_cqid (s : SessionState) (now : ℚ) :
    (tickAutoRefresh s now).current_quiz_id = s.current_quiz_id := by
  unfold tickAutoRefresh
  split_ifs <;> rfl

lemma tickAR_auto (s : SessionState) (now : ℚ) :
    (tickAutoRefresh s now).auto_submitted = s.auto_submitted := by
  unfold tickAutoRefresh
  split_ifs <;> rfl

lemma dormant_prePhases (store : List (String × Quiz)) (s : SessionState) (now : ℚ)
    (h : Dormant store s) :
    Dormant store (tickAutoRefresh (tickRefreshRequested (tickExpiry s now)) now) := by
  rcases h with hf | ⟨ha, hq⟩
  · left
    rw [tickAR_active, tickRR_active, tickExpiry_active]
    exact hf
  · right
    refine ⟨?_, ?_⟩
    · rw [tickAR_auto, tickRR_auto]
      exact tickExpiry_auto_true s now ha
    · intro qid hqid
      rw [tickAR_cqid, tickRR_cqid, tickExpiry_cqid] at hqid
      exact hq qid hqid

lemma tickAutoSubmit_dormant (store : List (String × Quiz)) (s : SessionState)
    (records : List StudentRecord) (rid ts : String) (h : Dormant store s) :
    tickAutoSubmit store s records rid ts = (s, records) := by
  unfold tickAutoSubmit
  by_cases hact : s.quiz_active = true
  · rcases h with hf | ⟨ha, hq⟩
    · rw [hf] at hact
      cases hact
    · rw [if_pos ⟨ha, hact⟩]
      split
      · rename_i qid hcq
        rw [hq qid hcq]
      · rfl
  · rw [if_neg (fun hc => hact hc.2)]

lemma tick_dormant_step (store : List (String × Quiz)) (s : SessionState)
    (records : List StudentRecord) (now : ℚ) (rid ts : String) (h : Dormant store s) :
    (tick store (s, records) now rid ts).2 = records ∧
    Dormant store (tick store (s, records) now rid ts).1 := by
  have h2 := dormant_prePhases store s now h
  unfold tick
  rw [tickAutoSubmit_dormant _ _ _ _ _ h2]
  exact ⟨rfl, h2⟩

lemma iterTicks_dormant (store : List (String × Quiz))
    (evs : List (ℚ × String × String)) (sr : SessionState × List StudentRecord)
    (h : Dormant store sr.1) : (iterTicks store evs sr).2 = sr.2 := by
  induction evs generalizing sr with
  | nil => rfl
  | cons ev evs ih =>
    have hstep := tick_dormant_step store sr.1 sr.2 ev.1 ev.2.1 ev.2.2 h
    simp only [iterTicks]
    rw [ih (tick store sr ev.1 ev.2.1 ev.2.2) hstep.2]
    exact hstep.1

lemma submit_records_shape (store : List (String × Quiz)) (records : List StudentRecord)
    (qid nm em rid ts : String) (ans : List (Option Nat)) :
    (submit_student_quiz store records qid nm em ans rid ts).1 = records ∨
    ∃ r, (submit_student_quiz store records qid nm em ans rid ts).1 = records ++ [r] := by
  unfold submit_student_quiz
  split
  · exact Or.inl rfl
  · cases lookupStore store qid with
    | none => exact Or.inl rfl
    | some quiz =>
      simp only
      split
      · exact Or.inl rfl
      · exact Or.inr ⟨_, rfl⟩

lemma tickAutoSubmit_shape_dormant (store : List (String × Quiz)) (s' : SessionState)
    (records : List StudentRecord) (rid ts : String)
    (hauto : s'.auto_submitted = true) (hact : s'.quiz_active = true) :
    Dormant store (tickAutoSubmit store s' records rid ts).1 ∧
    ((tickAutoSubmit store s' records rid ts).2 = records ∨
      ∃ r, (tickAutoSubmit store s' records rid ts).2 = records ++ [r]) := by
  unfold tickAutoSubmit
  rw [if_pos ⟨hauto, hact⟩]
  split
  · rename_i qid hcq
    split
    · rename_i quiz hl
      exact ⟨Or.inl rfl,
        submit_records_shape store records qid s'.current_student_name
          s'.current_student_email rid ts _⟩
    · rename_i hl
      refine ⟨Or.inr ⟨hauto, ?_⟩, Or.inl rfl⟩
      intro qid' hq'
      rw [hcq] at hq'
      obtain rfl : qid = qid' := Option.some.inj hq'
      exact hl
  · rename_i hcq
    refine ⟨Or.inr ⟨hauto, ?_⟩, Or.inl rfl⟩
    intro qid hqid
    rw [hcq] at hqid
    cases hqid

lemma tick_first_dormant (store : List (String × Quiz)) (s : SessionState)
    (records : List StudentRecord) (now : ℚ) (rid ts : String) (st0 d0 : ℚ)
    (hact : s.quiz_active = true) (hauto : s.auto_submitted = false)
    (hst : s.quiz_start_time = some st0) (hd : s.quiz_duration = some d0)
    (hst0 : st0 ≠ 0) (hd0 : d0 ≠ 0)
    (hthr : 1 ≤ now - s.last_refresh)
    (hexp : d0 - (now - st0) ≤ 0) :
    Dormant store (tick store (s, records) now rid ts).1 ∧
    ((tick store (s, records) now rid ts).2 = records ∨
      ∃ r, (tick store (s, records) now rid ts).2 = records ++ [r]) := by
  have hE : tickExpiry s now =
      { s with
          last_refresh := now
          time_expired := true
          auto_submitted := true
          force_refresh := true } := by
    unfold tickExpiry
    simp only [hst, hd]
    rw [if_pos ⟨hact, hst0, hd0⟩, if_pos hthr,
      if_pos ⟨max_le le_rfl hexp, hauto⟩]
  have hauto' : (tickAutoRefresh (tickRefreshRequested (tickExpiry s now)) now).auto_submitted
      = true := by
    rw [tickAR_auto, tickRR_auto, hE]
  have hact' : (tickAutoRefresh (tickRefreshRequested (tickExpiry s now)) now).quiz_active
      = true := by
    rw [tickAR_active, tickRR_active, hE]
    exact hact
  unfold tick
  exact tickAutoSubmit_shape_dormant store _ records rid ts hauto' hact'

/-- C3.  Within one attempt, auto-submission happens at most once: a tick
observed at an expired instant (remaining time 0, second-throttle passed,
one-shot flag not yet set) appends at most one `StudentRecord`, and every
further tick — at any later observation times — appends nothing. -/
theorem auto_submit_at_most_once (store : List (String × Quiz)) (s : SessionState)
    (records : List StudentRecord) (now : ℚ) (rid ts : String)
    (evs : List (ℚ × String × String)) (st0 d0 : ℚ)
    (hact : s.quiz_active = true) (hauto : s.auto_submitted = false)
    (hst : s.quiz_start_time = some st0) (hd : s.quiz_duration = some d0)
    (hst0 : st0 ≠ 0) (hd0 : d0 ≠ 0)
    (hthr : 1 ≤ now - s.last_refresh)
    (hexp : d0 - (now - st0) ≤ 0) :
    ((tick store (s, records) now rid ts).2 = records ∨
      ∃ r, (tick store (s, records) now rid ts).2 = records ++ [r])
    ∧ (iterTicks store evs (tick store (s, records) now rid ts)).2 =
        (tick store (s, records) now rid ts).2 := by
  obtain ⟨hdor, hshape⟩ :=
    tick_first_dormant store s records now rid ts st0 d0 hact hauto hst hd hst0 hd0 hthr hexp
  exact ⟨hshape, iterTicks_dormant store evs _ hdor⟩

/-- Witness for `auto_submit_at_most_once`: a one-minute attempt started at
time 1 and observed at time 100, with two further expiry observations. -/
theorem auto_submit_at_most_once_witness :
    (demoSession.quiz_active = true ∧ demoSession.auto_submitted = false ∧
      demoSession.quiz_start_time = some 1 ∧ demoSession.quiz_duration = some 60 ∧
      (1 : ℚ) ≠ 0 ∧ (60 : ℚ) ≠ 0 ∧ (1 : ℚ) ≤ 100 - demoSession.last_refresh ∧
      (60 : ℚ) - (100 - 1) ≤ 0)
    ∧ (((tick [("quiz_1", demoQuiz)] (demoSession, []) 100 "r1" "t1").2 = [] ∨
        ∃ r, (tick [("quiz_1", demoQuiz)] (demoSession, []) 100 "r1" "t1").2 = [] ++ [r])
      ∧ (iterTicks [("quiz_1", demoQuiz)] [(101, "r2", "t2"), (102, "r3", "t3")]
          (tick [("quiz_1", demoQuiz)] (demoSession, []) 100 "r1" "t1")).2 =
        (tick [("quiz_1", demoQuiz)] (demoSession, []) 100 "r1" "t1").2) :=
  ⟨⟨rfl, rfl, rfl, rfl, by norm_num, by norm_num, by norm_num [demoSession],
    by norm_num⟩,
   auto_submit_at_most_once [("quiz_1", demoQuiz)] demoSession [] 100 "r1" "t1"
     [(101, "r2", "t2"), (102, "r3", "t3")] 1 60 rfl rfl rfl rfl (by norm_num)
     (by norm_num) (by norm_num [demoSession]) (by norm_num)⟩

end QuizApp
